import Mathlib

/-!
Shallow embedding of `corral-validate` (src/validation/rust/src/lib.rs):
session-token extraction from HTTP headers, plan-tier comparison,
session validation against a relational store, companion-script path
resolution, and the stop sequence of the managed auth-server subprocess.

Rust strings are modelled as Lean `String`; the character-level helpers
(`split(';')`, `trim`, `strip_prefix`, `eq_ignore_ascii_case`) are
re-implemented structurally over `List Char` so that closed instances
evaluate inside the kernel.
-/

namespace Corral

/-- Structural splitting of a character list on a separator character,
mirroring Rust `str::split(c)`: the empty input yields one empty piece,
and every separator occurrence starts a new piece. -/
def splitOnChar (sep : Char) : List Char → List (List Char)
  | [] => [[]]
  | c :: cs =>
    match splitOnChar sep cs with
    | [] => if c = sep then [[], []] else [[c]]
    | p :: ps => if c = sep then [] :: p :: ps else (c :: p) :: ps

/-- ASCII/simple whitespace predicate used by `trim`. -/
def isWsChar (c : Char) : Bool :=
  c = ' ' || c = '\t' || c = '\n' || c = '\r'

/-- Drop leading whitespace from a character list. -/
def trimLeft : List Char → List Char
  | [] => []
  | c :: cs => if isWsChar c then trimLeft cs else c :: cs

/-- Rust `str::trim`: drop leading and trailing whitespace. -/
def trimChars (cs : List Char) : List Char :=
  ((trimLeft ((trimLeft cs).reverse)).reverse)

/-- Is `p` a prefix of `s` (character lists)? -/
def isPre : List Char → List Char → Bool
  | [], _ => true
  | _ :: _, [] => false
  | p :: ps, c :: cs => p = c && isPre ps cs

/-- Rust `str::strip_prefix` over strings: `some` of the remainder when
`pre` is a prefix of `s`, else `none`. -/
def dropPre (s pre : String) : Option String :=
  if isPre pre.data s.data then some (String.mk (s.data.drop pre.data.length))
  else none

/-- String split on a separator character (Rust `v.split(c)`). -/
def strSplit (s : String) (sep : Char) : List String :=
  (splitOnChar sep s.data).map String.mk

/-- String trim (Rust `part.trim()`). -/
def strTrim (s : String) : String := String.mk (trimChars s.data)

/-- ASCII lower-casing of a character. -/
def asciiLower (c : Char) : Char :=
  if 'A' ≤ c ∧ c ≤ 'Z' then Char.ofNat (c.toNat + 32) else c

/-- Rust `str::eq_ignore_ascii_case`. -/
def eqIgnoreAsciiCase (a b : String) : Bool :=
  a.data.map asciiLower = b.data.map asciiLower

/-! ## TokenExtractor (`extract_token`, lib.rs lines 312–330) -/

/-- Scan one cookie header value: split on `;`, trim each segment, return
the value after the first segment carrying the exact
`better-auth.session_token=` prefix. -/
def cookieToken (v : String) : Option String :=
  (strSplit v ';').findSome? fun part =>
    dropPre (strTrim part) "better-auth.session_token="

/-- The body of `extract_token`'s loop for a single `(name, value)` header:
a cookie header is scanned for the session-token segment, an authorization
header is stripped of the `Bearer ` prefix, anything else yields nothing. -/
def headerToken (k v : String) : Option String :=
  match (if eqIgnoreAsciiCase k "cookie" then cookieToken v else none) with
  | some t => some t
  | none =>
    if eqIgnoreAsciiCase k "authorization" then dropPre v "Bearer " else none

/-- `extract_token`: first header (in list order) yielding a token wins. -/
def extract_token (headers : List (String × String)) : Option String :=
  headers.findSome? fun kv => headerToken kv.1 kv.2

/-! ## PlanHierarchy (`plan_levels`, `require_plan`, lib.rs 45–49, 298–302) -/

/-- An authenticated user (struct `User`). -/
structure User where
  id : String
  email : String
  name : Option String
  plan : String
  role : String
  email_verified : Bool
  created_at : String
deriving DecidableEq, Repr

/-- The static plan-rank table built by `plan_levels()`. -/
def plan_levels : List (String × Nat) :=
  [("free", 0), ("pro", 1), ("team", 2), ("enterprise", 3)]

/-- `levels.get(p).unwrap_or(&0)`: rank lookup with unknown names at 0. -/
def planLevel (p : String) : Nat := (plan_levels.lookup p).getD 0

/-- `require_plan`: the user's plan rank must meet the required rank. -/
def require_plan (user : User) (plan : String) : Bool :=
  planLevel user.plan ≥ planLevel plan

/-! ## SessionStore and SessionValidator (lib.rs 241–295)

`rusqlite::Error` is modelled with the one variant the code inspects,
`QueryReturnedNoRows`, kept apart from every other store-level failure.
Store calls return `Except SqlError`; the `?` operator is `Except` bind.
-/

/-- The slice of `rusqlite::Error` the code distinguishes. -/
inductive SqlError where
  | QueryReturnedNoRows : SqlError
  | Other : Nat → SqlError
deriving DecidableEq, Repr

instance {ε α : Type} [DecidableEq ε] [DecidableEq α] :
    DecidableEq (Except ε α) := fun x y =>
  match x, y with
  | .ok a, .ok b =>
    if h : a = b then isTrue (by rw [h]) else
      isFalse (fun hc => h (Except.ok.inj hc))
  | .ok _, .error _ => isFalse (fun hc => Except.noConfusion hc)
  | .error _, .ok _ => isFalse (fun hc => Except.noConfusion hc)
  | .error e, .error f =>
    if h : e = f then isTrue (by rw [h]) else
      isFalse (fun hc => h (Except.error.inj hc))

/-- The outcome of each `row.get(i)` call in `get_user_by_id`'s row
closure.  A nullable column read as `Option<String>` yields `ok none`
on NULL; any other read problem is an `error`. -/
structure UserRowReads where
  id : Except SqlError String
  email : Except SqlError String
  name : Except SqlError (Option String)
  plan : Except SqlError (Option String)
  role : Except SqlError (Option String)
  email_verified : Except SqlError Bool
  created_at : Except SqlError String
deriving DecidableEq

/-- The shared store as seen through one validator: opening the
connection, the session lookup by token (missing row =
`QueryReturnedNoRows`), and the user lookup by id, whose row is the
per-column read outcomes above.  Prepare-statement failures are folded
into the query results as `Other` errors. -/
structure Store where
  conn : Except SqlError Unit
  sessionQuery : String → Except SqlError (String × String)
  userQuery : String → Except SqlError UserRowReads

/-- The chrono facts `validate_session` consumes: the two parsers
(RFC3339 with zone, naive `%Y-%m-%d %H:%M:%S` taken as UTC), each
yielding an instant on success, and the current UTC instant. -/
structure Chrono where
  parse_from_rfc3339 : String → Option Int
  parse_naive : String → Option Int
  now : Int

/-- The expiry test of lib.rs 261–267: RFC3339 first, naive format on
failure, and `true` (expired) when neither parses. -/
def isExpired (ch : Chrono) (expires_at : String) : Bool :=
  match ch.parse_from_rfc3339 expires_at with
  | some dt => decide (dt < ch.now)
  | none =>
    match ch.parse_naive expires_at with
    | some dt => decide (dt < ch.now)
    | none => true

/-- The row closure of `get_user_by_id` (lib.rs 280–288): `?` on every
column except `emailVerified`, which falls back to `false` on any read
problem; NULL `plan`/`role` default to `"free"`/`"user"`. -/
def rowToUser (r : UserRowReads) : Except SqlError User := do
  let id ← r.id
  let email ← r.email
  let name ← r.name
  let plan ← r.plan
  let role ← r.role
  let email_verified :=
    match r.email_verified with
    | .ok b => b
    | .error _ => false
  let created_at ← r.created_at
  pure { id, email, name,
         plan := plan.getD "free", role := role.getD "user",
         email_verified, created_at }

/-- `get_user_by_id` (lib.rs 274–295): run the user query and the row
closure; no rows is `ok none`, any other error propagates. -/
def get_user_by_id (st : Store) (user_id : String) :
    Except SqlError (Option User) :=
  match st.userQuery user_id >>= rowToUser with
  | .ok u => .ok (some u)
  | .error .QueryReturnedNoRows => .ok none
  | .error e => .error e

/-- `validate_session` (lib.rs 246–272): open a connection, look the
session up by token (missing row → `ok none`, other failure →
propagate), evaluate expiry (expired → `ok none`), then hydrate the
user. -/
def validate_session (st : Store) (ch : Chrono) (token : String) :
    Except SqlError (Option User) :=
  match st.conn with
  | .error e => .error e
  | .ok () =>
    match st.sessionQuery token with
    | .ok (user_id, expires_at) =>
      if isExpired ch expires_at then .ok none
      else get_user_by_id st user_id
    | .error .QueryReturnedNoRows => .ok none
    | .error e => .error e

/-! ## Companion-script path resolution (`find_auth_server`, lib.rs 192–207) -/

/-- The filesystem/environment facts `find_auth_server` consumes: the
`CORRAL_AUTH_SERVER` override, the file-existence predicate, and the
canonicalized chain of ancestor directories of the store file (its
parent first, then each `pop`ped parent up to the root); `none` when
canonicalization or taking the parent fails. -/
structure FsEnv where
  corral_auth_server : Option String
  is_file : String → Bool
  ancestors : Option (List String)

/-- The candidate path `dir.join("server").join("auth.js")`. -/
def authCandidate (dir : String) : String := dir ++ "/server/auth.js"

/-- `find_auth_server`: an override set in the environment is returned
iff it names an existing file (no fallback walk); otherwise the first
of at most 10 ancestor directories holding `server/auth.js` wins. -/
def find_auth_server (fs : FsEnv) : Option String :=
  match fs.corral_auth_server with
  | some p => if fs.is_file p then some p else none
  | none =>
    match fs.ancestors with
    | none => none
    | some dirs =>
      ((dirs.take 10).find? fun d => fs.is_file (authCandidate d)).map
        authCandidate

/-! ## Auth-server stop sequence (`stop_auth_server`, lib.rs 210–239)

The tracked handle is `Option Child`.  The Unix branch's observable
process actions are modelled as a trace: SIGTERM always, then — only
when the child has not exited within the 3-second grace window —
`kill` and `wait`.  The grace-window outcome is a field of the child,
abstracting the `try_wait` polling loop. -/

/-- A tracked child process: its pid and whether it exits within the
3-second grace window after SIGTERM. -/
structure Child where
  pid : Nat
  exitsWithinGrace : Bool
deriving DecidableEq, Repr

/-- Observable process-control actions of the stop sequence. -/
inductive StopAction where
  | sigterm : Nat → StopAction
  | kill : Nat → StopAction
  | wait : Nat → StopAction
deriving DecidableEq, Repr

/-- `stop_auth_server` on the guarded handle: emits the termination
actions for a tracked child and always clears the handle. -/
def stop_auth_server (h : Option Child) : List StopAction × Option Child :=
  match h with
  | some c =>
    (StopAction.sigterm c.pid ::
       (if c.exitsWithinGrace then []
        else [StopAction.kill c.pid, StopAction.wait c.pid]),
     none)
  | none => ([], none)

/-! ## Test fixtures (concrete inputs for witnesses and counterexamples) -/

/-- Fixture: a user row whose every column reads cleanly. -/
def rowClean : UserRowReads :=
  { id := .ok "u1", email := .ok "ann@example.com", name := .ok (some "Ann"),
    plan := .ok (some "pro"), role := .ok (some "admin"),
    email_verified := .ok true, created_at := .ok "2024-01-01" }

/-- Fixture: `rowClean` with a non-NULL read failure on the `plan` column. -/
def rowPlanErr : UserRowReads :=
  { rowClean with plan := .error (.Other 7) }

/-- Fixture: `rowClean` with a read failure on the `emailVerified` column. -/
def rowEvErr : UserRowReads :=
  { rowClean with email_verified := .error (.Other 3) }

/-- Fixture: store with the single session `tok ↦ (u1, exp)` and the
single user `u1 ↦ r`. -/
def storeOne (exp : String) (r : UserRowReads) : Store :=
  { conn := .ok (),
    sessionQuery := fun t =>
      if t = "tok" then .ok ("u1", exp) else .error .QueryReturnedNoRows,
    userQuery := fun u =>
      if u = "u1" then .ok r else .error .QueryReturnedNoRows }

/-- Fixture: store whose session query fails with a non-missing-row
store error. -/
def storeErr (c : Nat) : Store :=
  { conn := .ok (),
    sessionQuery := fun _ => .error (.Other c),
    userQuery := fun _ => .error (.Other c) }

/-- Fixture: clock where the RFC3339 parser maps exactly `"E"` to
`texp`, the naive parser maps exactly `"N"` to `texp`, and the current
instant is `tnow`. -/
def chronoAt (texp tnow : Int) : Chrono :=
  { parse_from_rfc3339 := fun s => if s = "E" then some texp else none,
    parse_naive := fun s => if s = "N" then some texp else none,
    now := tnow }

/-- Fixture: a user on the `pro` plan. -/
def uPro : User :=
  { id := "u", email := "e", name := none, plan := "pro", role := "user",
    email_verified := false, created_at := "c" }

/-- Fixture: a user on the `enterprise` plan. -/
def uEnt : User :=
  { uPro with plan := "enterprise" }

/-- Fixture for C8: override set to a non-file while an ancestor
directory does hold `server/auth.js`. -/
def fsCex : FsEnv :=
  { corral_auth_server := some "/bogus/auth.js",
    is_file := fun p => p = "/repo/server/auth.js",
    ancestors := some ["/repo/data", "/repo", "/"] }

/-- Fixture: override set to an existing file. -/
def fsOverride : FsEnv :=
  { corral_auth_server := some "/x/auth.js",
    is_file := fun p => p = "/x/auth.js",
    ancestors := none }

/-! ## Shared helper lemmas -/

/-- `findSome?` skips a block of elements on which `f` yields nothing. -/
theorem findSome_skip {α β : Type} (f : α → Option β) :
    ∀ (l1 l2 : List α), (∀ a ∈ l1, f a = none) →
      (l1 ++ l2).findSome? f = l2.findSome? f
  | [], _, _ => rfl
  | a :: as, l2, h => by
    have ha : f a = none := h a (List.mem_cons_self a as)
    simp only [List.cons_append, List.findSome?, ha]
    exact findSome_skip f as l2 fun x hx => h x (List.mem_cons_of_mem a hx)

/-- `find?` returns the head of the first satisfying suffix. -/
theorem find_first {α : Type} (pred : α → Bool) :
    ∀ (l1 l2 : List α) (a : α),
      (∀ x ∈ l1, pred x = false) → pred a = true →
      (l1 ++ a :: l2).find? pred = some a
  | [], l2, a, _, ha => by simp [List.find?_cons, ha]
  | x :: xs, l2, a, h, ha => by
    have hx : pred x = false := h x (List.mem_cons_self x xs)
    simp only [List.cons_append, List.find?_cons, hx]
    exact find_first pred xs l2 a
      (fun y hy => h y (List.mem_cons_of_mem x hy)) ha

/-! ## Claims -/

/-- C1 (counterexample): with the Authorization header listed before the
Cookie header, `extract_token` returns the Bearer token, not the
cookie-sourced token — cookie priority does not hold for every header
order. -/
theorem c1_counterexample :
    extract_token [("Authorization", "Bearer b"),
        ("Cookie", "better-auth.session_token=a")] = some "b" ∧
      extract_token [("Authorization", "Bearer b"),
        ("Cookie", "better-auth.session_token=a")] ≠ some "a" := by
  decide

/-- C1 (amended): `extract_token` returns the token of the first header
in list order that yields one (a cookie header containing a
`better-auth.session_token=` segment, or an authorization header with a
`Bearer ` value) — so the cookie source wins exactly when its header
appears first; and within a cookie header the first matching segment in
serialized segment order is used. -/
theorem c1_first_match :
    (∀ (pre post : List (String × String)) (k v t : String),
        (∀ kv ∈ pre, headerToken kv.1 kv.2 = none) →
        headerToken k v = some t →
        extract_token (pre ++ (k, v) :: post) = some t)
    ∧ (∀ (v : String) (ps1 ps2 : List String) (s t : String),
        strSplit v ';' = ps1 ++ s :: ps2 →
        (∀ p ∈ ps1,
          dropPre (strTrim p) "better-auth.session_token=" = none) →
        dropPre (strTrim s) "better-auth.session_token=" = some t →
        cookieToken v = some t) := by
  constructor
  · intro pre post k v t hpre hkv
    unfold extract_token
    rw [findSome_skip _ pre _ (fun kv hkvm => hpre kv hkvm)]
    simp only [List.findSome?, hkv]
  · intro v ps1 ps2 s t hsplit hps1 hs
    unfold cookieToken
    rw [hsplit, findSome_skip _ ps1 _ (fun p hp => hps1 p hp)]
    simp only [List.findSome?, hs]

/-- C1 (witness for the amended claim): a non-matching header followed
by a cookie header whose second segment matches. -/
theorem c1_witness :
    extract_token [("X", "y"),
      ("Cookie", "foo=1; better-auth.session_token=tok_abc")] =
      some "tok_abc" :=
  c1_first_match.1 [("X", "y")] [] "Cookie"
    "foo=1; better-auth.session_token=tok_abc" "tok_abc"
    (by decide) (by decide)

/-- Bind on a successful `Except` computation runs the continuation. -/
theorem except_bind_ok {ε α β : Type} (a : α) (f : α → Except ε β) :
    (Except.ok a : Except ε α) >>= f = f a := rfl

/-- Bind on a failed `Except` computation short-circuits. -/
theorem except_bind_err {ε α β : Type} (e : ε) (f : α → Except ε β) :
    (Except.error e : Except ε α) >>= f = .error e := rfl

/-- C2 (counterexample): a session whose parsed expiry equals the
current UTC instant is not treated as expired — `validate_session`
returns the hydrated user rather than absent, because the code's
comparison is strict (`dt < now`). -/
theorem c2_counterexample :
    validate_session (storeOne "E" rowClean) (chronoAt 100 100) "tok" =
      .ok (some { id := "u1", email := "ann@example.com",
                  name := some "Ann", plan := "pro", role := "admin",
                  email_verified := true, created_at := "2024-01-01" }) ∧
    validate_session (storeOne "E" rowClean) (chronoAt 100 100) "tok" ≠
      .ok none := by
  decide

/-- C2 (amended): for every session row whose expiry parses (in either
accepted format) to an instant strictly before the current UTC time,
`validate_session` returns absent with no error; the boundary instant
where expiry equals now is not expired. -/
theorem c2_strictly_past_absent (st : Store) (ch : Chrono)
    (token uid e : String)
    (hconn : st.conn = .ok ())
    (hs : st.sessionQuery token = .ok (uid, e))
    (hpast : (∃ t, ch.parse_from_rfc3339 e = some t ∧ t < ch.now) ∨
             (ch.parse_from_rfc3339 e = none ∧
              ∃ t, ch.parse_naive e = some t ∧ t < ch.now)) :
    validate_session st ch token = .ok none := by
  have hexp : isExpired ch e = true := by
    unfold isExpired
    rcases hpast with ⟨t, ht, hlt⟩ | ⟨hn, t, ht, hlt⟩
    · rw [ht]; exact decide_eq_true hlt
    · rw [hn, ht]; exact decide_eq_true hlt
  simp [validate_session, hconn, hs, hexp]

/-- C2 (witness): a concrete store and clock with the expiry one tick
in the past. -/
theorem c2_witness :
    validate_session (storeOne "E" rowClean) (chronoAt 99 100) "tok" =
      .ok none :=
  c2_strictly_past_absent (storeOne "E" rowClean) (chronoAt 99 100)
    "tok" "u1" "E" rfl (by decide) (Or.inl ⟨99, by decide, by decide⟩)

/-- C3: a session whose expiry string parses under neither the RFC3339
nor the naive format is treated as expired: `validate_session` returns
absent and surfaces no parse error. -/
theorem c3_unparsable_fails_closed (st : Store) (ch : Chrono)
    (token uid e : String)
    (hconn : st.conn = .ok ())
    (hs : st.sessionQuery token = .ok (uid, e))
    (h1 : ch.parse_from_rfc3339 e = none)
    (h2 : ch.parse_naive e = none) :
    validate_session st ch token = .ok none := by
  have hexp : isExpired ch e = true := by
    unfold isExpired; rw [h1, h2]
  simp [validate_session, hconn, hs, hexp]

/-- C3 (witness): the expiry string `"X"` parses under neither format
in the fixture clock. -/
theorem c3_witness :
    validate_session (storeOne "X" rowClean) (chronoAt 0 0) "tok" =
      .ok none :=
  c3_unparsable_fails_closed (storeOne "X" rowClean) (chronoAt 0 0)
    "tok" "u1" "X" rfl (by decide) rfl rfl

/-- C4: a token with no matching session row yields `ok none` (absence,
not an error), while any other store-level failure of the session
lookup propagates as a distinct error value. -/
theorem c4_not_found_absent (st : Store) (ch : Chrono) (token : String)
    (hconn : st.conn = .ok ()) :
    (st.sessionQuery token = .error .QueryReturnedNoRows →
       validate_session st ch token = .ok none)
    ∧ (∀ c, st.sessionQuery token = .error (.Other c) →
       validate_session st ch token = .error (.Other c)) := by
  constructor
  · intro hs; simp [validate_session, hconn, hs]
  · intro c hs; simp [validate_session, hconn, hs]

/-- C4 (witness): an unknown token on the one-session fixture store,
and an infrastructure failure on the failing fixture store. -/
theorem c4_witness :
    validate_session (storeOne "E" rowClean) (chronoAt 0 0) "nope" =
      .ok none ∧
    validate_session (storeErr 7) (chronoAt 0 0) "tok" =
      .error (.Other 7) :=
  ⟨(c4_not_found_absent (storeOne "E" rowClean) (chronoAt 0 0) "nope"
      rfl).1 (by decide),
   (c4_not_found_absent (storeErr 7) (chronoAt 0 0) "tok" rfl).2 7 rfl⟩

/-- C5: for a session whose expiry parses (in either format) to a
future instant, a readable user row hydrates to a `User` with the
row's id, email, name, verified flag and creation timestamp, with
NULL plan defaulting to `"free"` and NULL role to `"user"`; an absent
user row (orphaned session) yields absent. -/
theorem c5_valid_session_user (st : Store) (ch : Chrono)
    (token uid e : String)
    (hconn : st.conn = .ok ())
    (hs : st.sessionQuery token = .ok (uid, e))
    (hfut : (∃ t, ch.parse_from_rfc3339 e = some t ∧ ch.now < t) ∨
            (ch.parse_from_rfc3339 e = none ∧
             ∃ t, ch.parse_naive e = some t ∧ ch.now < t)) :
    (∀ (r : UserRowReads) (i em : String) (nm pl rl : Option String)
       (ev : Bool) (ca : String),
        st.userQuery uid = .ok r →
        r.id = .ok i → r.email = .ok em → r.name = .ok nm →
        r.plan = .ok pl → r.role = .ok rl →
        r.email_verified = .ok ev → r.created_at = .ok ca →
        validate_session st ch token =
          .ok (some { id := i, email := em, name := nm,
                      plan := pl.getD "free", role := rl.getD "user",
                      email_verified := ev, created_at := ca }))
    ∧ (st.userQuery uid = .error .QueryReturnedNoRows →
        validate_session st ch token = .ok none) := by
  have hexp : isExpired ch e = false := by
    unfold isExpired
    rcases hfut with ⟨t, ht, hlt⟩ | ⟨hn, t, ht, hlt⟩
    · rw [ht]; exact decide_eq_false (Int.not_lt.mpr (Int.le_of_lt hlt))
    · rw [hn, ht]; exact decide_eq_false (Int.not_lt.mpr (Int.le_of_lt hlt))
  constructor
  · intro r i em nm pl rl ev ca hq hid hem hnm hpl hrl hev hca
    simp [validate_session, hconn, hs, hexp, get_user_by_id, hq,
      rowToUser, hid, hem, hnm, hpl, hrl, hev, hca,
      except_bind_ok]
  · intro hq
    simp [validate_session, hconn, hs, hexp, get_user_by_id, hq,
      except_bind_err]

/-- C5 (witness): the scenario of a future expiry and a clean user
row. -/
theorem c5_witness :
    validate_session (storeOne "E" rowClean) (chronoAt 200 100) "tok" =
      .ok (some { id := "u1", email := "ann@example.com",
                  name := some "Ann", plan := "pro", role := "admin",
                  email_verified := true, created_at := "2024-01-01" }) :=
  (c5_valid_session_user (storeOne "E" rowClean) (chronoAt 200 100)
      "tok" "u1" "E" rfl (by decide) (Or.inl ⟨200, by decide, by decide⟩)).1
    rowClean "u1" "ann@example.com" (some "Ann") (some "pro")
    (some "admin") true "2024-01-01" (by decide) rfl rfl rfl rfl rfl rfl rfl

/-- C7 (counterexample): a non-NULL store-level read failure on the
`plan` column does not degrade to the default — it propagates as an
error from hydration and from `validate_session`. -/
theorem c7_counterexample :
    get_user_by_id (storeOne "E" rowPlanErr) "u1" = .error (.Other 7) ∧
    validate_session (storeOne "E" rowPlanErr) (chronoAt 200 100) "tok" =
      .error (.Other 7) := by
  decide

/-- C7 (amended): the email-verified flag defaults to `false` on any
read problem, but `plan` and `role` substitute their defaults only when
the column reads as NULL — any other store-level read failure on those
columns propagates as an error from user hydration. -/
theorem c7_degraded_defaults (st : Store) (uid : String)
    (r : UserRowReads) (i em : String) (nm : Option String) (ca : String)
    (hq : st.userQuery uid = .ok r)
    (hid : r.id = .ok i) (hem : r.email = .ok em) (hnm : r.name = .ok nm)
    (hca : r.created_at = .ok ca) :
    (∀ (pl rl : Option String) (err : SqlError),
        r.plan = .ok pl → r.role = .ok rl →
        r.email_verified = .error err →
        get_user_by_id st uid =
          .ok (some { id := i, email := em, name := nm,
                      plan := pl.getD "free", role := rl.getD "user",
                      email_verified := false, created_at := ca }))
    ∧ (∀ c, r.plan = .error (.Other c) →
        get_user_by_id st uid = .error (.Other c))
    ∧ (∀ (pl : Option String) (c : Nat), r.plan = .ok pl →
        r.role = .error (.Other c) →
        get_user_by_id st uid = .error (.Other c)) := by
  refine ⟨fun pl rl err hpl hrl hev => ?_, fun c hpl => ?_,
    fun pl c hpl hrl => ?_⟩
  · simp [get_user_by_id, hq, rowToUser, hid, hem, hnm, hpl, hrl, hev,
      hca, except_bind_ok]
  · simp [get_user_by_id, hq, rowToUser, hid, hem, hnm, hpl,
      except_bind_ok, except_bind_err]
  · simp [get_user_by_id, hq, rowToUser, hid, hem, hnm, hpl, hrl,
      except_bind_ok, except_bind_err]

/-- C7 (witness): a failing `emailVerified` read degrades to `false`
while the rest of the row hydrates normally. -/
theorem c7_witness :
    get_user_by_id (storeOne "E" rowEvErr) "u1" =
      .ok (some { id := "u1", email := "ann@example.com",
                  name := some "Ann", plan := "pro", role := "admin",
                  email_verified := false, created_at := "2024-01-01" }) :=
  (c7_degraded_defaults (storeOne "E" rowEvErr) "u1" rowEvErr "u1"
      "ann@example.com" (some "Ann") "2024-01-01" (by decide)
      rfl rfl rfl rfl).1
    (some "pro") (some "admin") (.Other 3) rfl rfl rfl

/-- The plan names with an entry in `plan_levels`. -/
def knownPlans : List String := ["free", "pro", "team", "enterprise"]

/-- Specification-side rank: the four tiers in strictly increasing
order with unknown names at 0, stated independently of the code's
lookup-table implementation. -/
def rankSpec (p : String) : Nat :=
  if p = "free" then 0
  else if p = "pro" then 1
  else if p = "team" then 2
  else if p = "enterprise" then 3
  else 0

/-- The code's rank lookup agrees with the specification-side rank. -/
theorem planLevel_eq_rankSpec (p : String) : planLevel p = rankSpec p := by
  by_cases h1 : p = "free"
  · subst h1; decide
  by_cases h2 : p = "pro"
  · subst h2; decide
  by_cases h3 : p = "team"
  · subst h3; decide
  by_cases h4 : p = "enterprise"
  · subst h4; decide
  have e1 : (p == "free") = false := beq_eq_false_iff_ne.mpr h1
  have e2 : (p == "pro") = false := beq_eq_false_iff_ne.mpr h2
  have e3 : (p == "team") = false := beq_eq_false_iff_ne.mpr h3
  have e4 : (p == "enterprise") = false := beq_eq_false_iff_ne.mpr h4
  simp [planLevel, plan_levels, rankSpec, List.lookup, e1, e2, e3, e4,
    h1, h2, h3, h4]

/-- C6: `require_plan` is pure and true exactly when the rank of the
user's plan (free=0 < pro < team < enterprise, unknown names rank 0)
is at least the rank of the required plan; hence it is reflexive on
every known plan, strictly monotone across tiers (the higher rank
satisfies the lower requirement but not conversely), and two unknown
plan names compare equal (each satisfies the other). -/
theorem c6_require_plan_rank :
    (∀ (u : User) (p : String),
        require_plan u p = true ↔ rankSpec p ≤ rankSpec u.plan)
    ∧ (∀ u : User, u.plan ∈ knownPlans → require_plan u u.plan = true)
    ∧ (∀ (u v : User) (p q : String), rankSpec p < rankSpec q →
        u.plan = q → v.plan = p →
        require_plan u p = true ∧ require_plan v q = false)
    ∧ (∀ u v : User, u.plan ∉ knownPlans → v.plan ∉ knownPlans →
        require_plan u v.plan = true ∧ require_plan v u.plan = true) := by
  have key : ∀ (u : User) (p : String),
      require_plan u p = true ↔ rankSpec p ≤ rankSpec u.plan := by
    intro u p
    simp [require_plan, planLevel_eq_rankSpec, ge_iff_le]
  have unk : ∀ p : String, p ∉ knownPlans → rankSpec p = 0 := by
    intro p hp
    simp [knownPlans] at hp
    obtain ⟨h1, h2, h3, h4⟩ := hp
    simp [rankSpec, h1, h2, h3, h4]
  refine ⟨key, fun u _ => (key u u.plan).mpr le_rfl, ?_, ?_⟩
  · intro u v p q hlt hu hv
    constructor
    · exact (key u p).mpr (by rw [hu]; omega)
    · cases hb : require_plan v q with
      | false => rfl
      | true =>
        have := (key v q).mp hb
        rw [hv] at this
        omega
  · intro u v hu hv
    constructor
    · exact (key u v.plan).mpr (by rw [unk _ hu, unk _ hv])
    · exact (key v u.plan).mpr (by rw [unk _ hu, unk _ hv])

/-- C6 (witness): an enterprise user satisfies a `pro` requirement
while a pro user fails an `enterprise` requirement. -/
theorem c6_witness :
    require_plan uEnt "pro" = true ∧
    require_plan uPro "enterprise" = false :=
  c6_require_plan_rank.2.2.1 uEnt uPro "pro" "enterprise"
    (by decide) rfl rfl

/-- C8 (counterexample): with the override set to a path that is not an
existing file, `find_auth_server` resolves to nothing even though an
ancestor directory holds `server/auth.js` — the override failure does
not fall back to the ancestor walk. -/
theorem c8_counterexample :
    find_auth_server fsCex = none ∧
    fsCex.corral_auth_server = some "/bogus/auth.js" ∧
    fsCex.is_file "/bogus/auth.js" = false ∧
    fsCex.ancestors = some ["/repo/data", "/repo", "/"] ∧
    fsCex.is_file (authCandidate "/repo") = true := by
  decide

/-- C8 (amended): an override naming an existing file is returned; an
override naming a non-file makes resolution fail outright, with no
fallback walk; only with no override does the search walk from the
store file's directory through at most 10 ancestor levels, returning
the first `server/auth.js` that exists, and it resolves to nothing when
the ancestor chain is unavailable or no checked level has the script. -/
theorem c8_resolution :
    (∀ (fs : FsEnv) (p : String), fs.corral_auth_server = some p →
        fs.is_file p = true → find_auth_server fs = some p)
    ∧ (∀ (fs : FsEnv) (p : String), fs.corral_auth_server = some p →
        fs.is_file p = false → find_auth_server fs = none)
    ∧ (∀ (fs : FsEnv) (ds1 ds2 : List String) (d : String),
        fs.corral_auth_server = none →
        fs.ancestors = some (ds1 ++ d :: ds2) →
        ds1.length < 10 →
        (∀ x ∈ ds1, fs.is_file (authCandidate x) = false) →
        fs.is_file (authCandidate d) = true →
        find_auth_server fs = some (authCandidate d))
    ∧ (∀ fs : FsEnv, fs.corral_auth_server = none →
        fs.ancestors = none → find_auth_server fs = none)
    ∧ (∀ (fs : FsEnv) (dirs : List String), fs.corral_auth_server = none →
        fs.ancestors = some dirs →
        (∀ x ∈ dirs.take 10, fs.is_file (authCandidate x) = false) →
        find_auth_server fs = none) := by
  refine ⟨?_, ?_, ?_, ?_, ?_⟩
  · intro fs p h1 h2; simp [find_auth_server, h1, h2]
  · intro fs p h1 h2; simp [find_auth_server, h1, h2]
  · intro fs ds1 ds2 d henv hanc hlen hds1 hd
    simp only [find_auth_server, henv, hanc]
    obtain ⟨n, hn⟩ : ∃ n, 10 - ds1.length = n + 1 :=
      ⟨10 - ds1.length - 1, by omega⟩
    have htake : (ds1 ++ d :: ds2).take 10 = ds1 ++ d :: ds2.take n := by
      rw [List.take_append_eq_append_take,
        List.take_of_length_le (Nat.le_of_lt hlen), hn,
        List.take_succ_cons]
    rw [htake, find_first _ ds1 _ d hds1 hd]
    rfl
  · intro fs henv hanc; simp [find_auth_server, henv, hanc]
  · intro fs dirs henv hanc hall
    simp only [find_auth_server, henv, hanc]
    rw [List.find?_eq_none.mpr fun x hx => by simp [hall x hx]]
    rfl

/-- C8 (witness): the override names an existing file and is returned
directly. -/
theorem c8_witness : find_auth_server fsOverride = some "/x/auth.js" :=
  c8_resolution.1 fsOverride "/x/auth.js" rfl (by decide)

/-- C9: stopping the auth server always clears the tracked handle, a
second stop emits no process actions and changes nothing, and stopping
with no tracked process is a no-op. -/
theorem c9_stop_idempotent :
    (∀ h : Option Child, (stop_auth_server h).2 = none)
    ∧ (∀ h : Option Child,
        stop_auth_server ((stop_auth_server h).2) = ([], none))
    ∧ stop_auth_server none = ([], none) := by
  refine ⟨fun h => ?_, fun h => ?_, rfl⟩
  · cases h <;> rfl
  · cases h <;> rfl

/-- C10: a bare `better-auth.session_token=` cookie segment and a bare
`Bearer ` authorization value both yield the empty-string token, which
is distinct from absence. -/
theorem c10_empty_token :
    extract_token [("Cookie", "better-auth.session_token=")] = some "" ∧
    extract_token [("Authorization", "Bearer ")] = some "" ∧
    (some "" : Option String) ≠ none := by
  decide

end Corral
